import Mathlib

/-!
Verification development for the PrintQ-system repository.

Client side (src/js/printLogic.js): file intake and dedup, page-count
resolution, cost aggregation, order orchestration (processPayment) and the
pay-button state machine.

Server side (src/js/backend/service-api.js, four variants separated by
document markers): the /convert-docx handler — scratch file lifecycle,
soffice availability check, and the converter subprocess timeout options.

Machine numbers are modelled as Int (JS numbers in the ranges exercised
here are exact integers); fallible steps are modelled by Option/Bool
environment fields describing the outcome of each external call.
-/

namespace PrintQ

/-- A queued file as stored by processSingleFile
(printLogic.js line 209: push of name, size, pages).
pages is Int: it holds whatever value page-count resolution produced. -/
structure QueuedFile where
  name : String
  size : Nat
  pages : Int
deriving DecidableEq, Repr

/-- JS truthiness fallback `v || 1` on a number: 0 is falsy, every other
integer (including negatives) is truthy and kept verbatim. -/
def jsOrOne (v : Int) : Int :=
  if v = 0 then 1 else v

/-- Outcome of the client's /convert-docx fetch in processSingleFile
(printLogic.js lines 186-202): either the inner try fails
(transport error, non-ok status, JSON parse error), or a JSON payload
arrives whose pages field is absent or carries some integer. -/
inductive ConvResp where
  | failure
  | payload (pages : Option Int)
deriving DecidableEq, Repr

/-- The branch of processSingleFile a file takes (printLogic.js lines
173-203): PDF (with the pdfjs parse outcome — none means getDocument
threw, some n means numPages = n, a library-guaranteed Nat), image,
word-processor document (with the converter response), or none of these
extensions (falls through all branches). -/
inductive FileKind where
  | pdf (parse : Option Nat)
  | image
  | wordDoc (resp : ConvResp)
  | other
deriving DecidableEq, Repr

/-- Page-count resolution of processSingleFile (printLogic.js lines
170-207): pageCount starts at 1; PDF takes numPages with the `|| 1`
fallback; image is 1; DOCX takes data.pages with the `|| 1` fallback, any
thrown error in either try block is caught and leaves 1. Total by
construction: resolution never throws. -/
def resolvePageCount : FileKind → Int
  | .pdf none => 1
  | .pdf (some n) => jsOrOne (n : Int)
  | .image => 1
  | .wordDoc .failure => 1
  | .wordDoc (.payload none) => 1
  | .wordDoc (.payload (some p)) => jsOrOne p
  | .other => 1

/-- The duplicate test of processSingleFile (printLogic.js line 167):
uploadedFiles.find on name and size equality. -/
def hasDupKey (q : List QueuedFile) (name : String) (size : Nat) : Bool :=
  q.any fun f => f.name == name && f.size == size

/-- processSingleFile's effect on the queue (printLogic.js lines 164-210):
return unchanged on a (name, size) duplicate, otherwise resolve the page
count and append the new entry. -/
def processSingleFile (q : List QueuedFile) (name : String) (size : Nat)
    (kind : FileKind) : List QueuedFile :=
  if hasDupKey q name size then q
  else q ++ [⟨name, size, resolvePageCount kind⟩]

/-- The (name, size) dedup key is unique within the queue. -/
def keysUnique (q : List QueuedFile) : Prop :=
  q.Pairwise fun a b => ¬ (a.name = b.name ∧ a.size = b.size)

/-- Total pages over the queue (printLogic.js line 244: reduce of pages). -/
def totalPages (q : List QueuedFile) : Int :=
  q.foldl (fun a f => a + f.pages) 0

/-- Pay-button states. The transient "reset" case of updatePayButtonState
clears the queue and re-enters the computed state, which is then
inactive; it is modelled by resetStep below. -/
inductive BtnState where
  | inactive
  | active
  | processing
deriving DecidableEq, Repr

/-- The state updatePayButtonState computes when no state is forced
(printLogic.js lines 257-259): inactive when the queue is empty or the
total page count is zero, else active. -/
def computedState (q : List QueuedFile) : BtnState :=
  if q.isEmpty ∨ totalPages q = 0 then .inactive else .active

/-- Client state relevant to the submission state machine: the queue and
the pay button. -/
structure ClientState where
  queue : List QueuedFile
  button : BtnState
deriving Repr

/-- handleFiles for one accepted file (printLogic.js lines 147-162):
processSingleFile, then updateCostCalculation, which ends in
updatePayButtonState() recomputing the button from the queue. -/
def addFileStep (s : ClientState) (name : String) (size : Nat)
    (kind : FileKind) : ClientState :=
  let q := processSingleFile s.queue name size kind
  ⟨q, computedState q⟩

/-- Start of processPayment (printLogic.js lines 304-307): button disabled
and shown as processing; the queue is untouched. -/
def beginSubmit (s : ClientState) : ClientState :=
  ⟨s.queue, .processing⟩

/-- The catch branch of processPayment (printLogic.js line 371):
updatePayButtonState("active") forces active; the queue is untouched. -/
def submitFail (s : ClientState) : ClientState :=
  ⟨s.queue, .active⟩

/-- The "reset" case of updatePayButtonState reached on success
(printLogic.js lines 288-298): the queue is cleared and
updateCostCalculation recomputes the button from the now-empty queue. -/
def resetStep (_s : ClientState) : ClientState :=
  ⟨[], computedState []⟩

/-- The client form state mutated by resetForm and the reset button case
(printLogic.js lines 14-18): queue, running total, file-input value, and
the selected price, print type and paper size. -/
structure FormState where
  uploadedFiles : List QueuedFile
  currentTotal : Int
  fileInputValue : String
  currentPricePerPage : Int
  currentPrintType : String
  currentPaperSize : String
deriving Repr

/-- updateCostCalculation's state effect (printLogic.js lines 243-250):
currentTotal := totalPages * currentPricePerPage. -/
def updateCostCalc (s : FormState) : FormState :=
  { s with currentTotal := totalPages s.uploadedFiles * s.currentPricePerPage }

/-- resetForm (printLogic.js lines 376-382): uploadedFiles = [];
currentTotal = 0; fileInput.value = ""; renderFileList (no state);
updateCostCalculation. No other variable is assigned. -/
def resetForm (s : FormState) : FormState :=
  updateCostCalc { s with uploadedFiles := [], currentTotal := 0, fileInputValue := "" }

/-- The "reset" case of updatePayButtonState (printLogic.js lines
288-298) performs the same form-state assignments as resetForm
(the remaining lines only style the button). -/
def payButtonResetCase (s : FormState) : FormState :=
  updateCostCalc { s with uploadedFiles := [], currentTotal := 0, fileInputValue := "" }

/-- One entry of ordersSummary (printLogic.js lines 335-340):
orderId is order?.id — none when savePrintJob returned null. -/
structure SummaryEntry where
  fileName : String
  pages : Int
  cost : Int
  orderId : Option Nat
deriving DecidableEq, Repr

/-- The per-file environment of one processPayment run: the queued file,
the uploadFileToSupabase outcome (none = upload failed, the function
returns null on any error), and the savePrintJob outcome for it
(none = insert failed, the function returns null on any error). -/
structure FileOutcome where
  f : QueuedFile
  uploadPath : Option String
  orderId : Option Nat
deriving DecidableEq, Repr

/-- The per-file loop of processPayment (printLogic.js lines 319-341):
on upload failure, continue — nothing is recorded; on upload success,
compute cost = pages * price, attempt savePrintJob, and push the entry
with orderId = order?.id whether or not the save succeeded. -/
def buildOrdersSummary (price : Int) : List FileOutcome → List SummaryEntry
  | [] => []
  | o :: rest =>
    match o.uploadPath with
    | none => buildOrdersSummary price rest
    | some _ => ⟨o.f.name, o.f.pages, o.f.pages * price, o.orderId⟩ :: buildOrdersSummary price rest

/-- Order records actually persisted in one run: savePrintJob is only
invoked after a successful upload, and creates a record exactly when it
returns an id. -/
def savedOrders (os : List FileOutcome) : List Nat :=
  os.filterMap fun o =>
    match o.uploadPath with
    | none => none
    | some _ => o.orderId

/-- totalCost of processPayment (printLogic.js line 355): reduce of cost
over every ordersSummary entry. -/
def totalCost (s : List SummaryEntry) : Int :=
  s.foldl (fun a o => a + o.cost) 0

/-- The total the spec describes: cost summed over entries whose orderId
is non-null. Modelled from the spec for comparison with totalCost. -/
def sumCostSuccessful (s : List SummaryEntry) : Int :=
  (s.filter fun o => o.orderId.isSome).foldl (fun a o => a + o.cost) 0

/-- Result of one processPayment run: the thrown error message or the
summary with its total, plus whether sendEmailNotification was reached. -/
structure PaymentOutcome where
  result : Except String (List SummaryEntry × Int)
  emailAttempted : Bool
deriving Repr

/-- processPayment (printLogic.js lines 303-373): validate email and
queue, build ordersSummary over the per-file outcomes, throw
"All uploads failed." when it is empty (before any email), otherwise
attempt the notification email, whose failure is thrown and caught. -/
def processPayment (customerEmail : String) (price : Int)
    (os : List FileOutcome) (emailOk : Bool) : PaymentOutcome :=
  if customerEmail = "" then ⟨.error "Please enter a Gmail address.", false⟩
  else if os.isEmpty then ⟨.error "No files uploaded.", false⟩
  else
    let summary := buildOrdersSummary price os
    if summary.isEmpty then ⟨.error "All uploads failed.", false⟩
    else if emailOk then ⟨.ok (summary, totalCost summary), true⟩
    else ⟨.error "Email failed", true⟩

/-! ## Server model: the /convert-docx handler of service-api.js -/

/-- State of the first variant's per-request soffice check
(service-api.js lines 126-132): the sofficeAvailable flag, the number of
scheduled-but-not-yet-run exec callbacks, and whether the 503 branch was
taken. -/
structure CheckState where
  sofficeAvailable : Bool
  pendingCallbacks : Nat
  returned503 : Bool
deriving DecidableEq, Repr

/-- The three synchronous steps of the check segment:
`let sofficeAvailable = true`; `exec("soffice --version", cb)` which only
schedules cb (Node runs exec callbacks after the current synchronous
segment; exec with valid arguments does not throw synchronously); the
`if (!sofficeAvailable) return 503` test. -/
inductive CheckOp where
  | initTrue
  | scheduleProbe
  | branch503
deriving DecidableEq, Repr

/-- Effect of one synchronous step on the check state. -/
def runCheckOp (s : CheckState) : CheckOp → CheckState
  | .initTrue => { s with sofficeAvailable := true }
  | .scheduleProbe => { s with pendingCallbacks := s.pendingCallbacks + 1 }
  | .branch503 => if s.sofficeAvailable then s else { s with returned503 := true }

/-- The check segment in source order (service-api.js lines 127-132). -/
def v1CheckOps : List CheckOp := [.initTrue, .scheduleProbe, .branch503]

/-- Run the whole synchronous check segment. -/
def runCheck (s : CheckState) : CheckState :=
  v1CheckOps.foldl runCheckOp s

/-- The scheduled probe callback, run by the event loop only after the
synchronous segment: `(err) => { if (err) sofficeAvailable = false }`,
where err is non-null exactly when soffice is not installed. -/
def drainProbe (sofficeInstalled : Bool) (s : CheckState) : CheckState :=
  { s with sofficeAvailable := s.sofficeAvailable && sofficeInstalled,
           pendingCallbacks := 0 }

/-- Environment of one /convert-docx request against the first variant:
whether req.file is present, whether soffice is installed, whether the
conversion exec reported an error (non-zero exit, timeout expiry, or
spawn failure), whether the pdf artifact exists after exec settles, and
whether PDFDocument.load succeeded with how many pages. -/
structure V1Env where
  fileProvided : Bool
  sofficeInstalled : Bool
  execErr : Bool
  pdfProduced : Bool
  loadOk : Bool
  pages : Nat
deriving DecidableEq, Repr

/-- Response of one request: the HTTP status sent, and whether the scratch
input file and the pdf artifact of this request still exist after the
handler returned (fs.unlinkSync is modelled as succeeding when called). -/
structure V1Response where
  status : Nat
  inputFileRemains : Bool
  pdfFileRemains : Bool
deriving DecidableEq, Repr

/-- The first variant's /convert-docx handler (service-api.js lines
122-165): 400 without a file (nothing written yet); the soffice check
segment, whose 503 branch is kept verbatim; then the input file is
written, the converter runs, and any error rejects into the catch block,
which returns 500 WITHOUT running the cleanup at lines 157-158 — the
unlink pair runs only on the success path just before the 200. -/
def convertDocxV1 (env : V1Env) : V1Response :=
  if !env.fileProvided then ⟨400, false, false⟩
  else
    let chk := runCheck ⟨true, 0, false⟩
    if chk.returned503 then ⟨503, false, false⟩
    else
      if env.execErr then ⟨500, true, env.pdfProduced⟩
      else if !env.pdfProduced then ⟨500, true, false⟩
      else if !env.loadOk then ⟨500, true, true⟩
      else ⟨200, false, false⟩

/-- The four server variants found in service-api.js, in file order. -/
inductive ServerVariant where
  | v1
  | v2
  | v3
  | v4
deriving DecidableEq, Repr

/-- The timeout option each variant passes to the converter exec call:
variant 1 at line 143 (timeout: 60_000), variant 2 at line 343
(timeout: 60000), variant 3 at line 561 (timeout: 60000), and variant 4
at line 740, whose exec call passes no options object at all. -/
def convertExecTimeout : ServerVariant → Option Nat
  | .v1 => some 60000
  | .v2 => some 60000
  | .v3 => some 60000
  | .v4 => none

/-- Whether the awaited conversion promise settles: the callback fires
when the subprocess exits on its own, or when a timeout option is present
(Node kills the subprocess at expiry and invokes the callback with an
error); with no timeout and a subprocess that never exits, the callback
never fires and the await blocks forever. -/
def execSettles (timeoutOpt : Option Nat) (subprocessExits : Bool) : Bool :=
  subprocessExits || timeoutOpt.isSome

/-! ## Helper lemmas -/

theorem totalCost_foldl (l : List SummaryEntry) (a : Int) :
    l.foldl (fun s o => s + o.cost) a = a + (l.map fun o => o.cost).sum := by
  induction l generalizing a with
  | nil => simp
  | cons x t ih => simp [List.foldl_cons, ih]; ring

theorem totalCost_eq_sum (l : List SummaryEntry) :
    totalCost l = (l.map fun o => o.cost).sum := by
  simpa using totalCost_foldl l 0

theorem buildOrdersSummary_all_upload_failed (price : Int) :
    ∀ os : List FileOutcome, (∀ o ∈ os, o.uploadPath = none) →
      buildOrdersSummary price os = [] := by
  intro os h
  induction os with
  | nil => rfl
  | cons o rest ih =>
    have ho : o.uploadPath = none := h o (by simp)
    simp [buildOrdersSummary, ho]
    exact ih fun x hx => h x (by simp [hx])

/-! ## Claim theorems -/

/-- Claim C1, counterexample: a request where the converter subprocess
fails (for instance a non-zero exit) gets a failure (500) response while
the scratch input file written for it is still present — the handler does
not remove it before returning, contrary to the claim that scratch input
and artifact are removed on every call, success or failure. -/
theorem convertDocx_cleanup_counterexample :
    (convertDocxV1 ⟨true, true, true, false, false, 0⟩).status = 500 ∧
    (convertDocxV1 ⟨true, true, true, false, false, 0⟩).inputFileRemains = true := by
  decide

/-- Claim C1 (amended): the /convert-docx handler removes the scratch
input file and the produced PDF artifact only on the non-500 paths: on a
success (200) response both are unlinked before returning, and on the
400/503 paths nothing was written; on any 500 failure response the
scratch input (and possibly the artifact) is left behind. -/
theorem convertDocx_cleanup_on_success (env : V1Env)
    (h : (convertDocxV1 env).status ≠ 500) :
    (convertDocxV1 env).inputFileRemains = false ∧
    (convertDocxV1 env).pdfFileRemains = false := by
  rcases env with ⟨fp, si, ee, pp, lo, pg⟩
  cases fp <;> cases ee <;> cases pp <;> cases lo <;>
    simp_all [convertDocxV1, runCheck, v1CheckOps, runCheckOp]

/-- Witness for the amended Claim C1 at a concrete successful request. -/
theorem convertDocx_cleanup_on_success_witness :
    (convertDocxV1 ⟨true, true, false, true, true, 3⟩).inputFileRemains = false ∧
    (convertDocxV1 ⟨true, true, false, true, true, 3⟩).pdfFileRemains = false :=
  convertDocx_cleanup_on_success ⟨true, true, false, true, true, 3⟩ (by decide)

/-- Claim C2, counterexample: one file whose upload succeeds but whose
order-record insert fails (savePrintJob returns null, so orderId is
null). Its entry is still pushed with its cost, and the charged total is
4 while the sum over entries with non-null orderId is 0 — the claim's
equality fails and the persistence-failed entry contributes its cost. -/
theorem totalCost_counterexample :
    totalCost (buildOrdersSummary 2 [⟨⟨"a.pdf", 10, 2⟩, some "uploads/1_a.pdf", none⟩]) = 4 ∧
    sumCostSuccessful (buildOrdersSummary 2 [⟨⟨"a.pdf", 10, 2⟩, some "uploads/1_a.pdf", none⟩]) = 0 ∧
    totalCost (buildOrdersSummary 2 [⟨⟨"a.pdf", 10, 2⟩, some "uploads/1_a.pdf", none⟩]) ≠
      sumCostSuccessful (buildOrdersSummary 2 [⟨⟨"a.pdf", 10, 2⟩, some "uploads/1_a.pdf", none⟩]) := by
  decide

/-- Claim C2 (amended): the total charged in one submission equals the sum
of pages * price over every file whose storage upload succeeded — every
ordersSummary entry contributes its cost, including entries whose
order-record persistence failed (null orderId). -/
theorem totalCost_sums_all_entries (price : Int) (os : List FileOutcome) :
    totalCost (buildOrdersSummary price os) =
      ((os.filter fun o => o.uploadPath.isSome).map fun o => o.f.pages * price).sum := by
  induction os with
  | nil => rfl
  | cons o rest ih =>
    cases ho : o.uploadPath with
    | none => simp [buildOrdersSummary, ho, List.filter_cons, ih]
    | some p =>
      rw [totalCost_eq_sum] at ih
      simp [buildOrdersSummary, ho, totalCost_eq_sum, ih]

/-- Claim C3, counterexample: three queued files where the upload of the
second ("b.pdf") fails. The batch result has exactly the two entries of
the first and third file and length 2 — no per-file failure entry for
"b.pdf" is recorded anywhere, contrary to the claim (and to the spec
scenario of 2 successes plus 1 failure entry). -/
theorem uploadFailure_entry_counterexample :
    buildOrdersSummary 2
        [⟨⟨"a.pdf", 1, 2⟩, some "uploads/a", some 1⟩,
         ⟨⟨"b.pdf", 2, 3⟩, none, none⟩,
         ⟨⟨"c.pdf", 3, 4⟩, some "uploads/c", some 2⟩] =
      [⟨"a.pdf", 2, 4, some 1⟩, ⟨"c.pdf", 4, 8, some 2⟩] ∧
    (buildOrdersSummary 2
        [⟨⟨"a.pdf", 1, 2⟩, some "uploads/a", some 1⟩,
         ⟨⟨"b.pdf", 2, 3⟩, none, none⟩,
         ⟨⟨"c.pdf", 3, 4⟩, some "uploads/c", some 2⟩]).length = 2 :=
  ⟨rfl, rfl⟩

/-- Claim C3 (amended): a file whose storage upload fails is skipped
silently — no entry of any kind is recorded for it in the batch result,
no order record is created for it, and the remaining files are processed
exactly as if the failed file were absent (one file's failure never
aborts the others). -/
theorem uploadFailure_skips_silently (price : Int) (before after : List FileOutcome)
    (f : QueuedFile) (oid : Option Nat) :
    buildOrdersSummary price (before ++ ⟨f, none, oid⟩ :: after) =
      buildOrdersSummary price (before ++ after) ∧
    savedOrders (before ++ ⟨f, none, oid⟩ :: after) = savedOrders (before ++ after) := by
  constructor
  · induction before with
    | nil => simp [buildOrdersSummary]
    | cons b rest ih => cases hb : b.uploadPath <;> simp [buildOrdersSummary, hb, ih]
  · simp [savedOrders, List.filterMap_append]

/-- Claim C4, counterexample: a batch of one file whose upload succeeds
but whose order-record insert fails. Zero entries end with a non-null
orderId, yet processPayment does not fail with the all-orders-failed
error: it proceeds and the notification email IS attempted. -/
theorem allOrdersFailed_counterexample :
    (processPayment "x@gmail.com" 2 [⟨⟨"a.pdf", 10, 2⟩, some "uploads/1_a.pdf", none⟩] true).emailAttempted = true ∧
    ((buildOrdersSummary 2 [⟨⟨"a.pdf", 10, 2⟩, some "uploads/1_a.pdf", none⟩]).all
      fun o => o.orderId.isNone) = true := by
  decide

/-- Claim C4 (amended): the whole-operation failure and the notification
skip are governed by emptiness of the batch result, i.e. by the uploads
alone: if every file's storage upload fails, processPayment throws
"All uploads failed." and the email send is never attempted. A batch
whose uploads succeed but whose order-record persists all fail still
proceeds to notification. -/
theorem allUploadsFailed_skips_email (email : String) (price : Int)
    (os : List FileOutcome) (emailOk : Bool)
    (h1 : email ≠ "") (h2 : os.isEmpty = false)
    (h3 : ∀ o ∈ os, o.uploadPath = none) :
    (processPayment email price os emailOk).result = .error "All uploads failed." ∧
    (processPayment email price os emailOk).emailAttempted = false := by
  have hsum := buildOrdersSummary_all_upload_failed price os h3
  simp [processPayment, h1, h2, hsum]

/-- Witness for the amended Claim C4 at a concrete one-file batch whose
upload fails. -/
theorem allUploadsFailed_skips_email_witness :
    (processPayment "x@gmail.com" 2 [⟨⟨"a.pdf", 1, 2⟩, none, none⟩] true).result =
      .error "All uploads failed." ∧
    (processPayment "x@gmail.com" 2 [⟨⟨"a.pdf", 1, 2⟩, none, none⟩] true).emailAttempted = false :=
  allUploadsFailed_skips_email "x@gmail.com" 2 [⟨⟨"a.pdf", 1, 2⟩, none, none⟩] true
    (by decide) (by decide) (by decide)

/-- Claim C5, counterexample: a converter call that returns HTTP success
with the malformed payload pages = -3. JS truthiness (`data.pages || 1`)
keeps any non-zero number, so the stored pages value is -3 — not an
integer greater than or equal to 1. -/
theorem resolvePageCount_counterexample :
    resolvePageCount (.wordDoc (.payload (some (-3)))) = -3 ∧
    ¬ 1 ≤ resolvePageCount (.wordDoc (.payload (some (-3)))) := by
  decide

/-- Claim C5 (amended): page-count resolution is total (never throws) and
every resolution path — PDF parse success or failure, image, converter
success, any conversion failure, or a payload with a missing or zero
pages field — stores an integer at least 1, provided that a pages value
actually present and non-zero in a successful converter payload is
non-negative; a malformed payload carrying a negative pages value is
stored verbatim. -/
theorem resolvePageCount_ge_one (q : List QueuedFile) (name : String) (size : Nat)
    (kind : FileKind)
    (h : ∀ p : Int, kind = .wordDoc (.payload (some p)) → 0 ≤ p) :
    1 ≤ resolvePageCount kind ∧
    ∀ f ∈ processSingleFile q name size kind, f ∈ q ∨ 1 ≤ f.pages := by
  have h1 : 1 ≤ resolvePageCount kind := by
    match kind with
    | .pdf none => decide
    | .pdf (some n) => simp only [resolvePageCount, jsOrOne]; split <;> omega
    | .image => decide
    | .wordDoc .failure => decide
    | .wordDoc (.payload none) => decide
    | .wordDoc (.payload (some p)) =>
      have hp : 0 ≤ p := h p rfl
      simp only [resolvePageCount, jsOrOne]; split <;> omega
    | .other => decide
  refine ⟨h1, ?_⟩
  intro f hf
  unfold processSingleFile at hf
  split at hf
  · exact Or.inl hf
  · rcases List.mem_append.mp hf with hq | he
    · exact Or.inl hq
    · right
      have : f = ⟨name, size, resolvePageCount kind⟩ := by simpa using he
      rw [this]
      exact h1

/-- Witness for the amended Claim C5 at a concrete image file added to an
empty queue. -/
theorem resolvePageCount_ge_one_witness :
    1 ≤ resolvePageCount .image ∧
    ∀ f ∈ processSingleFile [] "a.png" 5 .image, f ∈ ([] : List QueuedFile) ∨ 1 ≤ f.pages :=
  resolvePageCount_ge_one [] "a.png" 5 .image (by intro p hp; cases hp)

/-- Claim C7: adding a file whose (name, size) pair already exists in the
queue leaves the queue unchanged — in particular, adding the same pair
twice in succession (whatever the second resolution outcome) equals
adding it once — and processSingleFile preserves uniqueness of the
dedup key within the queue. -/
theorem processSingleFile_dedup (q : List QueuedFile) (name : String) (size : Nat)
    (k k' : FileKind) :
    processSingleFile (processSingleFile q name size k) name size k' =
      processSingleFile q name size k ∧
    (keysUnique q → keysUnique (processSingleFile q name size k)) := by
  constructor
  · by_cases hd : hasDupKey q name size
    · have h1 : processSingleFile q name size k = q := by
        simp [processSingleFile, hd]
      rw [h1]
      simp [processSingleFile, hd]
    · have h1 : processSingleFile q name size k = q ++ [⟨name, size, resolvePageCount k⟩] := by
        simp [processSingleFile, hd]
      rw [h1]
      have h2 : hasDupKey (q ++ [⟨name, size, resolvePageCount k⟩]) name size := by
        simp [hasDupKey, List.any_append]
      simp [processSingleFile, h2, h1]
  · intro hu
    by_cases hd : hasDupKey q name size
    · simpa [processSingleFile, hd] using hu
    · have hnone : ∀ x ∈ q, ¬ (x.name = name ∧ x.size = size) := by
        intro x hx hcon
        apply hd
        simp only [hasDupKey, List.any_eq_true]
        exact ⟨x, hx, by simp [hcon.1, hcon.2]⟩
      have hq1 : processSingleFile q name size k =
          q ++ [⟨name, size, resolvePageCount k⟩] := by
        simp [processSingleFile, hd]
      rw [hq1]
      unfold keysUnique at hu ⊢
      rw [List.pairwise_append]
      refine ⟨hu, by simp, ?_⟩
      intro a ha b hb
      have hb1 : b = ⟨name, size, resolvePageCount k⟩ := by simpa using hb
      rw [hb1]
      exact hnone a ha

/-- Witness for Claim C7 discharging the uniqueness hypothesis at a
concrete one-element queue. -/
theorem processSingleFile_dedup_witness :
    processSingleFile (processSingleFile [⟨"b.pdf", 7, 2⟩] "a.png" 5 .image) "a.png" 5 .image =
      processSingleFile [⟨"b.pdf", 7, 2⟩] "a.png" 5 .image ∧
    keysUnique (processSingleFile [⟨"b.pdf", 7, 2⟩] "a.png" 5 .image) :=
  ⟨(processSingleFile_dedup [⟨"b.pdf", 7, 2⟩] "a.png" 5 .image .image).1,
   (processSingleFile_dedup [⟨"b.pdf", 7, 2⟩] "a.png" 5 .image .image).2
     (List.pairwise_singleton _ _)⟩

/-- Claim C8: the submission state machine follows the specified trace —
an empty queue computes Inactive; adding one file (with its resolved page
count at least 1) makes it Active with exactly that file queued;
triggering submission enters Processing with the queue untouched; a
submission that throws returns to Active with the queue unchanged; a
successful submission passes through the reset case to Inactive with the
queue emptied. -/
theorem submission_state_trace (name : String) (size : Nat) (kind : FileKind)
    (h : 1 ≤ resolvePageCount kind) :
    (ClientState.mk [] (computedState [])).button = .inactive ∧
    (addFileStep ⟨[], computedState []⟩ name size kind).button = .active ∧
    (addFileStep ⟨[], computedState []⟩ name size kind).queue =
      [⟨name, size, resolvePageCount kind⟩] ∧
    (beginSubmit (addFileStep ⟨[], computedState []⟩ name size kind)).button = .processing ∧
    (beginSubmit (addFileStep ⟨[], computedState []⟩ name size kind)).queue =
      (addFileStep ⟨[], computedState []⟩ name size kind).queue ∧
    (submitFail (beginSubmit (addFileStep ⟨[], computedState []⟩ name size kind))).button = .active ∧
    (submitFail (beginSubmit (addFileStep ⟨[], computedState []⟩ name size kind))).queue =
      (addFileStep ⟨[], computedState []⟩ name size kind).queue ∧
    (resetStep (beginSubmit (addFileStep ⟨[], computedState []⟩ name size kind))).queue = [] ∧
    (resetStep (beginSubmit (addFileStep ⟨[], computedState []⟩ name size kind))).button = .inactive := by
  have hq : processSingleFile [] name size kind = [⟨name, size, resolvePageCount kind⟩] := by
    simp [processSingleFile, hasDupKey]
  have htp : totalPages [⟨name, size, resolvePageCount kind⟩] = resolvePageCount kind := by
    simp [totalPages]
  refine ⟨rfl, ?_, ?_, rfl, rfl, rfl, rfl, rfl, rfl⟩
  · have hne : resolvePageCount kind ≠ 0 := by omega
    simp [addFileStep, hq, computedState, totalPages, hne]
  · simp [addFileStep, hq]

/-- Witness for Claim C8 at a concrete image file. -/
theorem submission_state_trace_witness :
    (ClientState.mk [] (computedState [])).button = .inactive ∧
    (addFileStep ⟨[], computedState []⟩ "a.png" 5 .image).button = .active ∧
    (addFileStep ⟨[], computedState []⟩ "a.png" 5 .image).queue =
      [⟨"a.png", 5, resolvePageCount .image⟩] ∧
    (beginSubmit (addFileStep ⟨[], computedState []⟩ "a.png" 5 .image)).button = .processing ∧
    (beginSubmit (addFileStep ⟨[], computedState []⟩ "a.png" 5 .image)).queue =
      (addFileStep ⟨[], computedState []⟩ "a.png" 5 .image).queue ∧
    (submitFail (beginSubmit (addFileStep ⟨[], computedState []⟩ "a.png" 5 .image))).button = .active ∧
    (submitFail (beginSubmit (addFileStep ⟨[], computedState []⟩ "a.png" 5 .image))).queue =
      (addFileStep ⟨[], computedState []⟩ "a.png" 5 .image).queue ∧
    (resetStep (beginSubmit (addFileStep ⟨[], computedState []⟩ "a.png" 5 .image))).queue = [] ∧
    (resetStep (beginSubmit (addFileStep ⟨[], computedState []⟩ "a.png" 5 .image))).button = .inactive :=
  submission_state_trace "a.png" 5 .image (by decide)

/-- Claim C9: resetForm (and the identical reset case of
updatePayButtonState) clears exactly the queue, the running total and the
file-input value, and leaves the selected paper size, print type and
price per page untouched, so they carry over to the next submission. -/
theorem resetForm_frame (s : FormState) :
    (resetForm s).currentPaperSize = s.currentPaperSize ∧
    (resetForm s).currentPrintType = s.currentPrintType ∧
    (resetForm s).currentPricePerPage = s.currentPricePerPage ∧
    (resetForm s).uploadedFiles = [] ∧
    (resetForm s).currentTotal = 0 ∧
    (resetForm s).fileInputValue = "" ∧
    payButtonResetCase s = resetForm s := by
  refine ⟨rfl, rfl, rfl, rfl, ?_, rfl, rfl⟩
  simp [resetForm, updateCostCalc, totalPages]

/-- Claim C6, counterexample: the fourth server variant's converter exec
call passes no timeout option, so with a subprocess that never exits the
conversion call never settles — the claim that every invocation is
bounded by a hard 60-second timeout fails there. -/
theorem converterTimeout_counterexample :
    convertExecTimeout .v4 = none ∧
    execSettles (convertExecTimeout .v4) false = false := by
  decide

/-- Claim C6 (amended): in the first three server variants the converter
subprocess invocation carries the hard 60000 ms timeout option, so the
conversion call always settles even when the subprocess never exits; the
fourth variant passes no timeout and can wait indefinitely. -/
theorem converterTimeout_bounds (v : ServerVariant) (h : v ≠ .v4) :
    convertExecTimeout v = some 60000 ∧
    ∀ b : Bool, execSettles (convertExecTimeout v) b = true := by
  cases v <;> simp_all [convertExecTimeout, execSettles]

/-- Witness for the amended Claim C6 at the first variant with a hanging
subprocess. -/
theorem converterTimeout_bounds_witness :
    convertExecTimeout .v1 = some 60000 ∧
    execSettles (convertExecTimeout .v1) false = true :=
  ⟨(converterTimeout_bounds .v1 (by decide)).1,
   (converterTimeout_bounds .v1 (by decide)).2 false⟩

/-- Claim C10: in the first server variant, the 503 branch of
/convert-docx is unreachable for every request: after the synchronous
check segment sofficeAvailable is still true (the probe callback is
merely pending) so the 503 test never fires — the response status is
never 503 whatever the environment — and when soffice is actually
missing (so the conversion exec fails) the request is instead answered
with a 500 conversion failure. -/
theorem soffice503_unreachable (env : V1Env)
    (h1 : env.fileProvided = true)
    (h2 : env.sofficeInstalled = false → env.execErr = true) :
    (runCheck ⟨true, 0, false⟩).sofficeAvailable = true ∧
    (runCheck ⟨true, 0, false⟩).pendingCallbacks = 1 ∧
    (convertDocxV1 env).status ≠ 503 ∧
    (env.sofficeInstalled = false → (convertDocxV1 env).status = 500) := by
  rcases env with ⟨fp, si, ee, pp, lo, pg⟩
  subst h1
  refine ⟨rfl, rfl, ?_, ?_⟩
  · cases si <;> cases ee <;> cases pp <;> cases lo <;>
      simp_all [convertDocxV1, runCheck, v1CheckOps, runCheckOp]
  · intro hsi
    simp only at hsi
    subst hsi
    have hee := h2 rfl
    simp only at hee
    subst hee
    simp [convertDocxV1, runCheck, v1CheckOps, runCheckOp]

/-- Witness for Claim C10 at a concrete request on a server without
soffice installed. -/
theorem soffice503_unreachable_witness :
    (runCheck ⟨true, 0, false⟩).sofficeAvailable = true ∧
    (runCheck ⟨true, 0, false⟩).pendingCallbacks = 1 ∧
    (convertDocxV1 ⟨true, false, true, false, false, 0⟩).status ≠ 503 ∧
    (convertDocxV1 ⟨true, false, true, false, false, 0⟩).status = 500 := by
  have h := soffice503_unreachable ⟨true, false, true, false, false, 0⟩ rfl (fun _ => rfl)
  exact ⟨h.1, h.2.1, h.2.2.1, h.2.2.2 rfl⟩

end PrintQ
